import Mathlib

/-!
# Verification of the cattrs-api parameter-binding layer

Shallow embedding of `src/cattrs_api/wrappers.py`: a parameter-binding layer
that extracts a raw mapping from a request, structures it into a typed value
through a cattrs-style converter, and invokes the user handler with the typed
value.  Python runtime values are modelled by the inductive `Value`, Python
type annotations by `Ty`, exceptions by `Exc` (an `Except` result models a
raised exception), and coroutine objects by the `Value.coro` constructor.
Per-request observable actions (calling the extractor, calling
`converter.structure`, invoking the user handler) are recorded in an event
trace so that claims such as "the inner handler is never invoked" are
expressible.
-/

set_option autoImplicit false

namespace CattrsApi

/-- Python type annotations occurring in handler signatures and as structuring
targets.  `Ty.request` is `starlette.requests.Request`; `Ty.listTy args`
models `list` subscripted with `args` (empty for a bare `list`, as reported by
`typing.get_args`); `Ty.dataTy` names any other user record type. -/
inductive Ty where
  | request
  | str
  | int
  | listTy (args : List Ty)
  | dataTy (name : String)

/-- Result of Python `typing.get_args`: the subscript arguments of a
parameterized type, `[]` for an unparameterized one. -/
def getArgs : Ty → List Ty
  | .listTy args => args
  | _ => []

/-- Decides `t = Ty.request`; it renders the Python
comparison `p.ann != Request`. -/
def Ty.isRequest : Ty → Bool
  | .request => true
  | _ => false

/-- Python runtime values flowing through the layer: strings, lists, ints,
dicts / mappings (`vmap`), `None`, and coroutine objects (`coro v` is a
coroutine that yields `v` when awaited). -/
inductive Value where
  | str (s : String)
  | vlist (vs : List Value)
  | vint (n : Int)
  | vmap (kvs : List (String × Value))
  | vnone
  | coro (v : Value)

/-- Python truthiness (`bool(v)`), as used by `if not inner:`.  Empty strings,
lists and mappings, `None` and `0` are falsy; a coroutine object is always
truthy. -/
def truthy : Value → Bool
  | .str s => !s.isEmpty
  | .vlist vs => !vs.isEmpty
  | .vint n => n != 0
  | .vmap kvs => !kvs.isEmpty
  | .vnone => false
  | .coro _ => true

/-- The string `repr(type(v))` that Python interpolates for `{type(value)}`. -/
def pytype : Value → String
  | .str _ => "<class 'str'>"
  | .vlist _ => "<class 'list'>"
  | .vint _ => "<class 'int'>"
  | .vmap _ => "<class 'dict'>"
  | .vnone => "<class 'NoneType'>"
  | .coro _ => "<class 'coroutine'>"

def Value.isStr : Value → Bool
  | .str _ => true
  | _ => false

def Value.isList : Value → Bool
  | .vlist _ => true
  | _ => false

/-- Exceptions raised by the layer.  The Python code raises `ValueError` for
every failure of its own; `typeError` models the `TypeError` the runtime
raises when a non-awaitable is awaited. -/
inductive Exc where
  | valueError (msg : String)
  | typeError (msg : String)

/-- The exception's class name — what an `except SomeError:` clause can
discriminate on. -/
def Exc.kind : Exc → String
  | .valueError _ => "ValueError"
  | .typeError _ => "TypeError"

/-- The exception's message string. -/
def Exc.msg : Exc → String
  | .valueError m => m
  | .typeError m => m

/-- The cattrs Converter: `struct v t` models `converter.structure(v, t)`,
returning the structured value or the raised structuring error. -/
structure Converter where
  struct : Value → Ty → Except Exc Value

/-- Left-to-right effectful map over a list, modelling a Python list
comprehension whose body may raise: the first raised exception propagates. -/
def mapExcept {α β : Type} (f : α → Except Exc β) : List α → Except Exc (List β)
  | [] => .ok []
  | x :: xs =>
    match f x with
    | .error e => .error e
    | .ok y =>
      match mapExcept f xs with
      | .error e => .error e
      | .ok ys => .ok (y :: ys)

/-- Python `s.split(",")` on the character list: splitting on every comma,
empty segments included (`"".split(",") == [""]`, `"a,".split(",") == ["a",""]`). -/
def splitCommaChars : List Char → List (List Char)
  | [] => [[]]
  | c :: cs =>
    if c = ',' then [] :: splitCommaChars cs
    else
      match splitCommaChars cs with
      | [] => [[c]]
      | r :: rs => (c :: r) :: rs

/-- Python `value.split(",")`. -/
def pySplitComma (s : String) : List String :=
  (splitCommaChars s.data).map String.mk

/-- Python `v.strip()`: remove leading and trailing whitespace. -/
def pyStrip (s : String) : String :=
  String.mk (((s.data.dropWhile Char.isWhitespace).reverse.dropWhile
    Char.isWhitespace).reverse)

/-- The hook built by `list_factory`, closing over the converter and the
element type `cls` (Python `struct_list(value, _)`; the second, context
argument is ignored).  A string is split on commas, each piece stripped and
structured into `cls`; a list is structured element by element; anything else
raises `ValueError` naming the value's type. -/
def struct_list (converter : Converter) (cls : Ty) (value : Value) (_ : Ty) :
    Except Exc Value :=
  match value with
  | .str s =>
    (mapExcept (fun v => converter.struct (.str (pyStrip v)) cls) (pySplitComma s)).map Value.vlist
  | .vlist vs =>
    (mapExcept (fun v => converter.struct v cls) vs).map Value.vlist
  | v => .error (.valueError ("Unknown value type given. Type: " ++ pytype v))

/-- Models `list_factory(typ, converter)`: checks the subscript arguments of `typ`
and returns the structuring hook, or raises a `ValueError` when `typ` carries
zero or more than one subscript. -/
def list_factory (typ : Ty) (converter : Converter) :
    Except Exc (Value → Ty → Except Exc Value) :=
  let inner := getArgs typ
  if inner.length > 1 then
    .error (.valueError "List cannot have more than one subscript")
  else
    match inner with
    | [] => .error (.valueError "List must have a subscript")
    | cls :: _ => .ok (struct_list converter cls)

/-- A starlette request, reduced to what the extractors read from it. -/
structure Request where
  queryParams : List (String × Value)

/-- A raw extractor (`InnerFunc | AsyncInnerFunc`): `call` models invoking the
callable on a request (for an `async def` extractor the result is a coroutine
object), and `isCoroutineFn` records what `inspect.iscoroutinefunction`
reports for it.  A plain callable that merely returns a coroutine has
`isCoroutineFn = false`. -/
structure Extractor where
  isCoroutineFn : Bool
  call : Request → Value

/-- Models `await v`: yields the wrapped value of a coroutine object; awaiting a
non-awaitable raises `TypeError`. -/
def awaitValue : Value → Except Exc Value
  | .coro v => .ok v
  | v => .error (.typeError ("object " ++ pytype v ++ " can't be used in 'await' expression"))

/-- The value bound to `inner` in `wr_func`: the extractor's call result,
awaited exactly when `inspect.iscoroutinefunction(inner_func)` holds. -/
def extractInner (ext : Extractor) (req : Request) : Except Exc Value :=
  if ext.isCoroutineFn then awaitValue (ext.call req)
  else .ok (ext.call req)

/-- A parameter of a user handler's signature: its name and its declared
type annotation (Python `p.annotation`). -/
structure Param where
  name : String
  ann : Ty

/-- A positional argument passed to the user handler: either the request
object or a structured value. -/
inductive Arg where
  | req (r : Request)
  | val (v : Value)

/-- A user handler (`UserEndpoint`): its introspectable signature and its
implementation, receiving the positional argument list it is called with
(awaiting the call is folded into `impl`). -/
structure UserEndpoint where
  params : List Param
  impl : List Arg → Except Exc Value

/-- Observable per-request actions of the wrapped handler. -/
inductive Event where
  | extractorCalled
  | structureCalled (v : Value) (t : Ty)
  | handlerCalled (args : List Arg)

/-- The code after `inner` is bound in the one-custom-parameter `wr_func`:
falsy `inner` raises the binding error; otherwise `inner` is structured into
the custom parameter's annotation and the original handler is called as
`func(request, structed)`. -/
def afterInner (conv : Converter) (ann : Ty) (func : UserEndpoint)
    (req : Request) (inner : Value) : Except Exc Value × List Event :=
  if truthy inner then
    match conv.struct inner ann with
    | .error e => (.error e, [.extractorCalled, .structureCalled inner ann])
    | .ok structed =>
      (func.impl [.req req, .val structed],
       [.extractorCalled, .structureCalled inner ann,
        .handlerCalled [.req req, .val structed]])
  else
    (.error (.valueError "Failed to extract inner from request"), [.extractorCalled])

/-- The wrapped handler `wr_func` produced when exactly one custom parameter
exists (annotation `ann`): extract, test truthiness, structure, call the
original handler.  Returns the result together with the event trace. -/
def wrFuncOne (conv : Converter) (ext : Extractor) (ann : Ty)
    (func : UserEndpoint) (req : Request) : Except Exc Value × List Event :=
  match extractInner ext req with
  | .error e => (.error e, [.extractorCalled])
  | .ok inner => afterInner conv ann func req inner

/-- The wrapped handler `wr_func` produced when no custom parameter exists:
`return await func(request)`. -/
def wrFuncZero (func : UserEndpoint) (req : Request) :
    Except Exc Value × List Event :=
  (func.impl [.req req], [.handlerCalled [.req req]])

/-- The `custom` list computed by `wr`: parameters (with their signature
index, from `enumerate`) whose annotation is not `Request`. -/
def customParams (ps : List Param) : List (Nat × Param) :=
  ps.enum.filter (fun ip => !(Ty.isRequest ip.2.ann))

/-- The wrapping function `wr` returned by `parse_wrap`: introspects the
handler's signature, rejects more than one custom parameter, and otherwise
returns the appropriate `wr_func`.  An `Except.error` models the
configuration error raised at wrap time, before any request is processed. -/
def wr (conv : Converter) (ext : Extractor) (func : UserEndpoint) :
    Except Exc (Request → Except Exc Value × List Event) :=
  let custom := customParams func.params
  if custom.length > 1 then
    .error (.valueError "Only one custom parameter allowed")
  else
    match custom with
    | (_, p) :: _ => .ok (wrFuncOne conv ext p.ann func)
    | [] => .ok (wrFuncZero func)

/-- Models `parse_wrap(converter, inner_func)`: returns the wrapping function. -/
def parse_wrap (conv : Converter) (ext : Extractor) :
    UserEndpoint → Except Exc (Request → Except Exc Value × List Event) :=
  wr conv ext

/-- The query extractor baked into `query_wrap`:
`lambda req: req.query_params`, a synchronous callable. -/
def queryExtractor : Extractor :=
  ⟨false, fun req => .vmap req.queryParams⟩

/-- Models `query_wrap(converter)`. -/
def query_wrap (conv : Converter) :
    UserEndpoint → Except Exc (Request → Except Exc Value × List Event) :=
  parse_wrap conv queryExtractor

/-! ## Concrete fixtures used by witnesses and counterexamples -/

/-- A converter whose `structure` returns the raw value unchanged. -/
def idConv : Converter := ⟨fun v _ => .ok v⟩

/-- A request with no query parameters. -/
def emptyReq : Request := ⟨[]⟩

/-- A request with query string `x=5`. -/
def xReq : Request := ⟨[("x", .str "5")]⟩

/-- Handler `async def handler(request: Request): ...` — no custom parameter. -/
def zeroParamFunc : UserEndpoint :=
  ⟨[⟨"request", .request⟩], fun _ => .ok .vnone⟩

/-- Handler `async def handler(request: Request, foo: Foo): ...` — one custom
parameter, declared after the request. -/
def oneParamFunc : UserEndpoint :=
  ⟨[⟨"request", .request⟩, ⟨"foo", .dataTy "Foo"⟩], fun _ => .ok .vnone⟩

/-- Handler `async def handler(foo: Foo, request: Request): ...` — one custom
parameter, declared before the request. -/
def swappedFunc : UserEndpoint :=
  ⟨[⟨"foo", .dataTy "Foo"⟩, ⟨"request", .request⟩], fun _ => .ok .vnone⟩

/-- Handler `async def handler(request: Request, foo: Foo, bar: Bar): ...` — two
custom parameters. -/
def twoParamFunc : UserEndpoint :=
  ⟨[⟨"request", .request⟩, ⟨"foo", .dataTy "Foo"⟩, ⟨"bar", .dataTy "Bar"⟩],
   fun _ => .ok .vnone⟩

/-- A plain synchronous callable that returns a coroutine object: its
`inspect.iscoroutinefunction` is `false` although its result is awaitable. -/
def coroExt : Extractor :=
  ⟨false, fun _ => .coro (.vmap [("x", .str "5")])⟩

/-! ## Wrap-time-resolved variant of the one-parameter wrapper (for C7) -/

/-- The one-custom-parameter wrapper specialized to a synchronous extractor:
the extractor's result is used directly. -/
def wrFuncOneSync (conv : Converter) (call : Request → Value) (ann : Ty)
    (func : UserEndpoint) (req : Request) : Except Exc Value × List Event :=
  afterInner conv ann func req (call req)

/-- The one-custom-parameter wrapper specialized to an asynchronous
extractor: the extractor's result is awaited. -/
def wrFuncOneAsync (conv : Converter) (call : Request → Value) (ann : Ty)
    (func : UserEndpoint) (req : Request) : Except Exc Value × List Event :=
  match awaitValue (call req) with
  | .error e => (.error e, [.extractorCalled])
  | .ok inner => afterInner conv ann func req inner

/-- A wrapper in which the sync/async branch is resolved once, when the
handler is wrapped (the `if` is outside the per-request function), by
inspecting the extractor's declared nature. -/
def wrFuncOneResolved (conv : Converter) (ext : Extractor) (ann : Ty)
    (func : UserEndpoint) : Request → Except Exc Value × List Event :=
  if ext.isCoroutineFn then wrFuncOneAsync conv ext.call ann func
  else wrFuncOneSync conv ext.call ann func

/-! ## Helper lemmas about `mapExcept` -/

/-- Mapping then `mapExcept` fuses into one `mapExcept`. -/
theorem mapExcept_map {α β γ : Type} (g : α → β) (f : β → Except Exc γ) :
    ∀ l : List α, mapExcept f (l.map g) = mapExcept (fun a => f (g a)) l := by
  intro l
  induction l with
  | nil => rfl
  | cons x xs ih => simp [mapExcept, ih]

/-- A successful `mapExcept` is exactly a pointwise-successful conversion of
each element, in order. -/
theorem mapExcept_ok_iff {α β : Type} (f : α → Except Exc β) :
    ∀ (l : List α) (out : List β),
      mapExcept f l = .ok out ↔ List.Forall₂ (fun a b => f a = .ok b) l out := by
  intro l
  induction l with
  | nil =>
    intro out
    constructor
    · intro h
      simp only [mapExcept, Except.ok.injEq] at h
      subst h
      exact .nil
    · intro h
      cases h
      rfl
  | cons x xs ih =>
    intro out
    constructor
    · intro h
      simp only [mapExcept] at h
      cases hf : f x with
      | error e => rw [hf] at h; simp at h
      | ok y =>
        rw [hf] at h
        cases hm : mapExcept f xs with
        | error e => rw [hm] at h; simp at h
        | ok ys =>
          rw [hm] at h
          simp only [Except.ok.injEq] at h
          subst h
          exact .cons hf ((ih ys).mp hm)
    · intro h
      cases h with
      | cons hf hrest =>
        simp only [mapExcept, hf, (ih _).mpr hrest]

/-- If `list_factory` succeeds on a type whose subscript arguments are `[e]`,
the returned hook is `struct_list` specialized to `e`. -/
theorem list_factory_ok (typ e : Ty) (conv : Converter)
    (hook : Value → Ty → Except Exc Value)
    (he : getArgs typ = [e]) (hf : list_factory typ conv = .ok hook) :
    hook = struct_list conv e := by
  unfold list_factory at hf
  rw [he] at hf
  simp at hf
  exact hf.symm

/-! ## Claim theorems -/

/-- C1: for every parameterized sequence type with exactly one element type
argument `e`, the hook returned by `list_factory` maps a comma-joined string
to the same ordered sequence as it maps the list of its comma-split,
whitespace-trimmed pieces; a successful string conversion has one element per
comma-separated segment; and a list input is converted element by element via
the registry, preserving order and length, with no splitting. -/
theorem struct_list_string_eq_split_list (typ e : Ty) (conv : Converter)
    (hook : Value → Ty → Except Exc Value) (t : Ty)
    (he : getArgs typ = [e]) (hf : list_factory typ conv = .ok hook) (s : String) :
    hook (.str s) t
      = hook (.vlist ((pySplitComma s).map (fun p => Value.str (pyStrip p)))) t ∧
    (∀ out, hook (.str s) t = .ok out →
       ∃ l, out = .vlist l ∧ l.length = (pySplitComma s).length) ∧
    (∀ vs out, hook (.vlist vs) t = .ok out →
       ∃ l, out = .vlist l ∧ l.length = vs.length ∧
         ∀ i (h1 : i < vs.length) (h2 : i < l.length),
           conv.struct (vs.get ⟨i, h1⟩) e = .ok (l.get ⟨i, h2⟩)) := by
  have hhook : hook = struct_list conv e := list_factory_ok typ e conv hook he hf
  subst hhook
  refine ⟨?_, ?_, ?_⟩
  · simp [struct_list, mapExcept_map]
  · intro out h
    simp only [struct_list] at h
    cases hm : mapExcept (fun v => conv.struct (.str (pyStrip v)) e) (pySplitComma s) with
    | error err => rw [hm] at h; simp [Except.map] at h
    | ok l =>
      rw [hm] at h
      simp only [Except.map, Except.ok.injEq] at h
      refine ⟨l, h.symm, ?_⟩
      exact (((mapExcept_ok_iff _ _ _).mp hm).length_eq).symm
  · intro vs out h
    simp only [struct_list] at h
    cases hm : mapExcept (fun v => conv.struct v e) vs with
    | error err => rw [hm] at h; simp [Except.map] at h
    | ok l =>
      rw [hm] at h
      simp only [Except.map, Except.ok.injEq] at h
      have hfa := (mapExcept_ok_iff _ _ _).mp hm
      refine ⟨l, h.symm, hfa.length_eq.symm, ?_⟩
      intro i h1 h2
      exact hfa.get h1 h2

/-- Witness for C1 at the spec's concrete example: the type `list[str]`, the
identity converter, and the raw string `"a, b,c"`, whose split-and-trimmed
pieces are exactly `["a", "b", "c"]`. -/
theorem struct_list_string_eq_split_list_witness :
    getArgs (Ty.listTy [Ty.str]) = [Ty.str] ∧
    list_factory (Ty.listTy [Ty.str]) idConv = .ok (struct_list idConv Ty.str) ∧
    ((pySplitComma "a, b,c").map (fun p => Value.str (pyStrip p)))
      = [Value.str "a", Value.str "b", Value.str "c"] ∧
    struct_list idConv Ty.str (Value.str "a, b,c") Ty.str
      = struct_list idConv Ty.str
          (Value.vlist ((pySplitComma "a, b,c").map (fun p => Value.str (pyStrip p)))) Ty.str :=
  ⟨rfl, rfl, rfl,
   (struct_list_string_eq_split_list (Ty.listTy [Ty.str]) Ty.str idConv
      (struct_list idConv Ty.str) Ty.str rfl rfl "a, b,c").1⟩

/-- C3: for every user handler declaring two or more non-request parameters,
`wr` raises the configuration error `ValueError("Only one custom parameter
allowed")` at wrap time — the `Except.error` result means no wrapped handler
is ever produced, so no request can be processed. -/
theorem wr_two_custom_config_error (conv : Converter) (ext : Extractor)
    (func : UserEndpoint) (h : (customParams func.params).length > 1) :
    wr conv ext func = .error (.valueError "Only one custom parameter allowed") := by
  simp only [wr]
  rw [if_pos h]

/-- Witness for C3: a handler `(request: Request, foo: Foo, bar: Bar)` with
two custom parameters is rejected at wrap time. -/
theorem wr_two_custom_config_error_witness :
    (customParams twoParamFunc.params).length > 1 ∧
    wr idConv queryExtractor twoParamFunc
      = .error (.valueError "Only one custom parameter allowed") :=
  ⟨by decide, wr_two_custom_config_error idConv queryExtractor twoParamFunc (by decide)⟩

/-- C4: `list_factory` applied to a type with zero subscript arguments raises
a configuration error whose message contains "must have a subscript", and
applied to a type with more than one subscript argument raises one whose
message contains "cannot have more than one subscript"; in both cases the
result is an `Except.error`, so no hook is returned and no raw value can be
converted. -/
theorem list_factory_subscript_errors (typ : Ty) (conv : Converter) :
    (getArgs typ = [] →
       list_factory typ conv
         = .error (.valueError ("List " ++ "must have a subscript"))) ∧
    ((getArgs typ).length > 1 →
       list_factory typ conv
         = .error (.valueError ("List " ++ "cannot have more than one subscript"))) := by
  constructor
  · intro h
    simp [list_factory, h]
  · intro h
    simp only [list_factory]
    rw [if_pos h]
    rfl

/-- Witness for C4: the bare type `list` (zero subscripts) and the type
`list[int, str]` (two subscripts). -/
theorem list_factory_subscript_errors_witness :
    getArgs (Ty.listTy []) = [] ∧
    list_factory (Ty.listTy []) idConv
      = .error (.valueError ("List " ++ "must have a subscript")) ∧
    (getArgs (Ty.listTy [Ty.int, Ty.str])).length > 1 ∧
    list_factory (Ty.listTy [Ty.int, Ty.str]) idConv
      = .error (.valueError ("List " ++ "cannot have more than one subscript")) :=
  ⟨rfl, (list_factory_subscript_errors (Ty.listTy []) idConv).1 rfl,
   by decide, (list_factory_subscript_errors (Ty.listTy [Ty.int, Ty.str]) idConv).2 (by decide)⟩

/-- C5: for a handler with zero non-request parameters, `wr` returns the
forwarding `wr_func`: on every request it invokes the original handler with
the request alone, returns that handler's result, and performs no other
action (the trace holds only the handler call). -/
theorem wr_zero_custom_forwards (conv : Converter) (ext : Extractor)
    (func : UserEndpoint) (h : customParams func.params = []) :
    wr conv ext func = .ok (wrFuncZero func) ∧
    ∀ req, wrFuncZero func req
      = (func.impl [.req req], [.handlerCalled [.req req]]) := by
  constructor
  · simp [wr, h]
  · intro req
    rfl

/-- Witness for C5: the handler `(request: Request)` wrapped with the query
extractor forwards a concrete request unchanged. -/
theorem wr_zero_custom_forwards_witness :
    customParams zeroParamFunc.params = [] ∧
    wr idConv queryExtractor zeroParamFunc = .ok (wrFuncZero zeroParamFunc) ∧
    wrFuncZero zeroParamFunc xReq
      = (zeroParamFunc.impl [.req xReq], [.handlerCalled [.req xReq]]) :=
  ⟨rfl, (wr_zero_custom_forwards idConv queryExtractor zeroParamFunc rfl).1,
   (wr_zero_custom_forwards idConv queryExtractor zeroParamFunc rfl).2 xReq⟩

/-- C8: for every raw value that is neither a string nor a list, the hook
raises `ValueError` with a message that names the unexpected value's type
(the `++ pytype v` suffix of the message). -/
theorem struct_list_unknown_shape (conv : Converter) (cls : Ty) (v : Value)
    (t : Ty) (h1 : v.isStr = false) (h2 : v.isList = false) :
    struct_list conv cls v t
      = .error (.valueError ("Unknown value type given. Type: " ++ pytype v)) := by
  cases v with
  | str s => simp [Value.isStr] at h1
  | vlist vs => simp [Value.isList] at h2
  | vint n => rfl
  | vmap kvs => rfl
  | vnone => rfl
  | coro c => rfl

/-- Witness for C8: the integer `3` is neither a string nor a list, and the
hook's error message names `<class 'int'>`. -/
theorem struct_list_unknown_shape_witness :
    Value.isStr (Value.vint 3) = false ∧
    Value.isList (Value.vint 3) = false ∧
    struct_list idConv Ty.int (Value.vint 3) Ty.int
      = .error (.valueError ("Unknown value type given. Type: " ++ pytype (Value.vint 3))) :=
  ⟨rfl, rfl, struct_list_unknown_shape idConv Ty.int (Value.vint 3) Ty.int rfl rfl⟩

/-- C2 (counterexample to the stated message): with the query extractor on a
request with an empty query string, the wrapped one-custom-parameter handler
raises a binding error whose message is `"Failed to extract inner from
request"` (capital F), not the claimed `"failed to extract inner from
request"`. -/
theorem wr_falsy_binding_error_counterexample :
    wr idConv queryExtractor oneParamFunc
      = .ok (wrFuncOne idConv queryExtractor (Ty.dataTy "Foo") oneParamFunc) ∧
    (wrFuncOne idConv queryExtractor (Ty.dataTy "Foo") oneParamFunc emptyReq).1
      = .error (.valueError "Failed to extract inner from request") ∧
    Exc.msg (.valueError "Failed to extract inner from request")
      ≠ "failed to extract inner from request" :=
  ⟨rfl, rfl, by decide⟩

/-- C2 (amended): for every wrapped handler with exactly one custom parameter
and every request on which the extractor's result is falsy, the wrapped
handler raises `ValueError("Failed to extract inner from request")`; the
trace holds only the extractor call, so the raw mapping is never structured
and the inner handler is never invoked. -/
theorem wr_falsy_binding_error (conv : Converter) (ext : Extractor)
    (func : UserEndpoint) (i : Nat) (p : Param) (req : Request) (v : Value)
    (hc : customParams func.params = [(i, p)])
    (hx : extractInner ext req = .ok v) (hv : truthy v = false) :
    wr conv ext func = .ok (wrFuncOne conv ext p.ann func) ∧
    wrFuncOne conv ext p.ann func req
      = (.error (.valueError "Failed to extract inner from request"),
         [.extractorCalled]) := by
  constructor
  · simp [wr, hc]
  · simp [wrFuncOne, hx, afterInner, hv]

/-- Witness for C2 (amended): the handler `(request: Request, foo: Foo)`
wrapped with the query extractor, called on a request with no query
parameters. -/
theorem wr_falsy_binding_error_witness :
    customParams oneParamFunc.params = [(1, ⟨"foo", Ty.dataTy "Foo"⟩)] ∧
    extractInner queryExtractor emptyReq = .ok (Value.vmap []) ∧
    truthy (Value.vmap []) = false ∧
    wrFuncOne idConv queryExtractor (Ty.dataTy "Foo") oneParamFunc emptyReq
      = (.error (.valueError "Failed to extract inner from request"),
         [.extractorCalled]) :=
  ⟨rfl, rfl, rfl,
   (wr_falsy_binding_error idConv queryExtractor oneParamFunc 1
      ⟨"foo", Ty.dataTy "Foo"⟩ emptyReq (Value.vmap []) rfl rfl rfl).2⟩

/-- C7: the wrapped handler's per-request behavior is exactly that of a
wrapper whose sync/async branch was resolved at wrap time from the
extractor's declared nature (`inspect.iscoroutinefunction`): the branch
condition depends only on wrap-time data, so testing it per request never
changes the outcome. -/
theorem wrFuncOne_eq_resolved (conv : Converter) (ext : Extractor) (ann : Ty)
    (func : UserEndpoint) :
    wrFuncOne conv ext ann func = wrFuncOneResolved conv ext ann func := by
  funext req
  cases hb : ext.isCoroutineFn with
  | false =>
    simp [wrFuncOne, wrFuncOneResolved, wrFuncOneSync, extractInner, hb]
  | true =>
    simp only [wrFuncOne, wrFuncOneResolved, wrFuncOneAsync, extractInner, hb,
      if_true]

/-- C9: for every handler with exactly one custom parameter, whatever its
recorded signature index `i`, the wrapped handler invokes the original
handler with the request as first positional argument and the structured
value as second — the index `i` does not occur in the conclusion's argument
list `[req, structed]`, so a handler declaring its custom parameter before
its request parameter receives the structured value in its second
(request-annotated) slot. -/
theorem wr_one_custom_call_positions (conv : Converter) (ext : Extractor)
    (func : UserEndpoint) (i : Nat) (p : Param) (req : Request)
    (inner structed : Value)
    (hc : customParams func.params = [(i, p)])
    (hx : extractInner ext req = .ok inner)
    (ht : truthy inner = true)
    (hs : conv.struct inner p.ann = .ok structed) :
    wr conv ext func = .ok (wrFuncOne conv ext p.ann func) ∧
    wrFuncOne conv ext p.ann func req
      = (func.impl [.req req, .val structed],
         [.extractorCalled, .structureCalled inner p.ann,
          .handlerCalled [.req req, .val structed]]) := by
  constructor
  · simp [wr, hc]
  · simp [wrFuncOne, hx, afterInner, ht, hs]

/-- Witness for C9: the handler `(foo: Foo, request: Request)` — custom
parameter at index 0, before the request — is nevertheless called as
`func(request, structed)`, so the structured value lands in the second,
request-annotated slot. -/
theorem wr_one_custom_call_positions_witness :
    customParams swappedFunc.params = [(0, ⟨"foo", Ty.dataTy "Foo"⟩)] ∧
    extractInner queryExtractor xReq = .ok (Value.vmap [("x", Value.str "5")]) ∧
    truthy (Value.vmap [("x", Value.str "5")]) = true ∧
    idConv.struct (Value.vmap [("x", Value.str "5")]) (Ty.dataTy "Foo")
      = .ok (Value.vmap [("x", Value.str "5")]) ∧
    wrFuncOne idConv queryExtractor (Ty.dataTy "Foo") swappedFunc xReq
      = (swappedFunc.impl [.req xReq, .val (Value.vmap [("x", Value.str "5")])],
         [.extractorCalled,
          .structureCalled (Value.vmap [("x", Value.str "5")]) (Ty.dataTy "Foo"),
          .handlerCalled [.req xReq, .val (Value.vmap [("x", Value.str "5")])]]) :=
  ⟨rfl, rfl, rfl, rfl,
   (wr_one_custom_call_positions idConv queryExtractor swappedFunc 0
      ⟨"foo", Ty.dataTy "Foo"⟩ xReq (Value.vmap [("x", Value.str "5")])
      (Value.vmap [("x", Value.str "5")]) rfl rfl rfl rfl).2⟩

/-- C10: for every extractor that is a plain synchronous callable returning a
coroutine object (`iscoroutinefunction` is false), the wrapper does not await
the result: the value bound to `inner` is the coroutine object itself, it is
truthy, and it is what gets passed to the registry's structure call. -/
theorem sync_coroutine_not_awaited (conv : Converter) (ext : Extractor)
    (ann : Ty) (func : UserEndpoint) (req : Request) (m : Value)
    (h1 : ext.isCoroutineFn = false) (h2 : ext.call req = .coro m) :
    extractInner ext req = .ok (.coro m) ∧
    truthy (.coro m) = true ∧
    (wrFuncOne conv ext ann func req).2.take 2
      = [.extractorCalled, .structureCalled (.coro m) ann] := by
  have hx : extractInner ext req = .ok (.coro m) := by
    simp [extractInner, h1, h2]
  refine ⟨hx, rfl, ?_⟩
  simp only [wrFuncOne, hx, afterInner, truthy, if_true]
  cases hs : conv.struct (.coro m) ann with
  | error e => simp [hs]
  | ok structed => simp [hs]

/-- Witness for C10: a synchronous callable returning the coroutine that
would yield the mapping `{"x": "5"}`; the coroutine object itself reaches the
structure call. -/
theorem sync_coroutine_not_awaited_witness :
    coroExt.isCoroutineFn = false ∧
    coroExt.call emptyReq = .coro (.vmap [("x", .str "5")]) ∧
    extractInner coroExt emptyReq = .ok (.coro (.vmap [("x", .str "5")])) ∧
    (wrFuncOne idConv coroExt (Ty.dataTy "Foo") oneParamFunc emptyReq).2.take 2
      = [.extractorCalled,
         .structureCalled (.coro (.vmap [("x", .str "5")])) (Ty.dataTy "Foo")] :=
  ⟨rfl, rfl,
   (sync_coroutine_not_awaited idConv coroExt (Ty.dataTy "Foo") oneParamFunc
      emptyReq (.vmap [("x", .str "5")]) rfl rfl).1,
   (sync_coroutine_not_awaited idConv coroExt (Ty.dataTy "Foo") oneParamFunc
      emptyReq (.vmap [("x", .str "5")]) rfl rfl).2.2⟩

/-- C6 (counterexample): one concrete failure of each of the three categories
— a configuration error from `list_factory`, a binding error from the wrapped
handler, and a shape error from the hook — all carry the same exception kind
`ValueError`, so the categories are not distinguishable by kind. -/
theorem errors_same_kind_counterexample :
    list_factory (Ty.listTy []) idConv
      = .error (.valueError "List must have a subscript") ∧
    (wrFuncOne idConv queryExtractor (Ty.dataTy "Foo") oneParamFunc emptyReq).1
      = .error (.valueError "Failed to extract inner from request") ∧
    struct_list idConv Ty.int Value.vnone Ty.int
      = .error (.valueError ("Unknown value type given. Type: " ++ pytype Value.vnone)) ∧
    Exc.kind (.valueError "List must have a subscript")
      = Exc.kind (.valueError "Failed to extract inner from request") ∧
    Exc.kind (.valueError "Failed to extract inner from request")
      = Exc.kind (.valueError ("Unknown value type given. Type: " ++ pytype Value.vnone)) :=
  ⟨rfl, rfl, rfl, rfl, rfl⟩

/-- C6 (amended): every failure this layer raises itself — configuration,
binding, or unexpected-shape — is a `ValueError`, so the three categories
share one exception kind and are distinguishable only by their messages,
which are pairwise distinct.  The conjuncts exhibit each error as the code
produces it and compare kinds and messages. -/
theorem errors_distinguished_by_message_not_kind :
    wr idConv queryExtractor twoParamFunc
      = .error (.valueError "Only one custom parameter allowed") ∧
    (wrFuncOne idConv queryExtractor (Ty.dataTy "Foo") swappedFunc emptyReq).1
      = .error (.valueError "Failed to extract inner from request") ∧
    struct_list idConv Ty.str (Value.vint 7) Ty.str
      = .error (.valueError ("Unknown value type given. Type: " ++ pytype (Value.vint 7))) ∧
    Exc.kind (.valueError "Only one custom parameter allowed") = "ValueError" ∧
    Exc.kind (.valueError "List must have a subscript") = "ValueError" ∧
    Exc.kind (.valueError "List cannot have more than one subscript") = "ValueError" ∧
    Exc.kind (.valueError "Failed to extract inner from request") = "ValueError" ∧
    (∀ v : Value,
       Exc.kind (.valueError ("Unknown value type given. Type: " ++ pytype v))
         = "ValueError") ∧
    Exc.msg (.valueError "Only one custom parameter allowed")
      ≠ Exc.msg (.valueError "Failed to extract inner from request") ∧
    (∀ v : Value,
       Exc.msg (.valueError "Failed to extract inner from request")
         ≠ Exc.msg (.valueError ("Unknown value type given. Type: " ++ pytype v))) ∧
    (∀ v : Value,
       Exc.msg (.valueError "Only one custom parameter allowed")
         ≠ Exc.msg (.valueError ("Unknown value type given. Type: " ++ pytype v))) := by
  refine ⟨rfl, rfl, rfl, rfl, rfl, rfl, rfl, ?_, by decide, ?_, ?_⟩
  · intro v
    cases v <;> rfl
  · intro v
    cases v <;> (simp only [Exc.msg, pytype]; decide)
  · intro v
    cases v <;> (simp only [Exc.msg, pytype]; decide)

end CattrsApi
